import Mathlib

/-!
A verification development for the royalty attribution and settlement core of
the ai-music-royalty-platform repository.

The Python source is shallowly embedded:
* machine floats become exact rationals (`ℚ`);
* database tables (Supabase / SQL) become lists of records inside a `DB`
  state structure, queries become `List.filter` / head-of-filter, inserts
  become appends, and SQL `UPDATE`s become `List.map` over the table;
* the SQL transaction in the payout route is modelled by returning the
  original state on any abort (rollback) and the mutated state on commit;
* nondeterministic effects (uuid4, utcnow, the external chain call, os.environ)
  are threaded as explicit parameters.

Sources embedded: server/utils/royalties.py, server/jobs/auditor.py,
server/routes/payouts.py, server/utils/dual_proof.py, server/utils/chain.py,
server/utils/compliance.py, server/utils/security.py.
-/

namespace RoyaltyPlatform

/-! ### Python-arithmetic helpers

`roundHalfEven` / `pyRound` model Python's builtin `round(x, n)` (banker's
rounding); `pyInt` models `int(x)` (truncation toward zero). -/

/-- Round a rational to the nearest integer, ties to the even integer,
as Python's builtin `round` does. -/
def roundHalfEven (q : ℚ) : ℤ :=
  let f : ℤ := ⌊q⌋
  let r : ℚ := q - f
  if r < 1/2 then f
  else if 1/2 < r then f + 1
  else if f % 2 = 0 then f else f + 1

/-- Python `round(q, n)`: round-half-even at `n` decimal places. -/
def pyRound (q : ℚ) (n : ℕ) : ℚ :=
  (roundHalfEven (q * 10 ^ n) : ℚ) / 10 ^ n

/-- Python `int(q)`: truncation toward zero. -/
def pyInt (q : ℚ) : ℤ :=
  if 0 ≤ q then ⌊q⌋ else ⌈q⌉

/-! ### server/utils/royalties.py — the payout-weight calculator -/

/-- Embedding of `calculate_payout_weight` (royalties.py lines 48-98).
`0.6`, `0.4`, `180.0`, and the tier multipliers are the source's literals;
the dictionary `.get(model_tier, 1.0)` (with `model_tier` possibly `None`)
is the `match` default arm. -/
def calculate_payout_weight (similarity sdk_confidence : ℚ)
    (duration_seconds : Option ℚ) (model_tier : Option String) : ℚ :=
  let base_weight := similarity * (6/10) + sdk_confidence * (4/10)
  let duration_multiplier : ℚ :=
    match duration_seconds with
    | none => 1
    | some d => min (d / 180) 1
  let model_multiplier : ℚ :=
    match model_tier with
    | some "free" => 8/10
    | some "standard" => 1
    | some "premium" => 12/10
    | _ => 1
  max 0 (min 1 (base_weight * duration_multiplier * model_multiplier))

/-- Embedding of `calculate_payout_amount` (royalties.py lines 101-118).
`base_rate=None` falls back to `float(os.getenv("ROYALTY_BASE_RATE", "10.0"))`;
the environment lookup is the explicit `env_royalty_base_rate` parameter. -/
def calculate_payout_amount (payout_weight : ℚ) (base_rate : Option ℚ)
    (env_royalty_base_rate : Option ℚ) : ℚ :=
  pyRound (payout_weight * (base_rate.getD (env_royalty_base_rate.getD 10))) 2

/-- `clamp` as the spec writes it (spec section 4.1). -/
def clamp (lo hi q : ℚ) : ℚ := max lo (min hi q)

/-- The spec's weight formula (spec section 4.1), written from the spec's
words, to be compared with the embedding of the source. -/
def specPayoutWeight (similarity sdk_confidence : ℚ)
    (duration_seconds : Option ℚ) (model_tier : Option String) : ℚ :=
  clamp 0 1 ((similarity * (6/10) + sdk_confidence * (4/10)) *
    (match duration_seconds with
     | none => 1
     | some d => min (d / 180) 1) *
    (match model_tier with
     | some "free" => 8/10
     | some "standard" => 1
     | some "premium" => 12/10
     | _ => 1))

/-! ### Data model

Rows of the datastore tables, with floats as `ℚ` and timestamps as `ℚ`
(minutes on one absolute axis; only order and differences matter).
Optional columns are `Option`. JSON `metadata` objects are flattened to the
fields the embedded code reads. -/

/-- A row of `tracks` (the fields the core reads: routes/payouts.py join). -/
structure Track where
  id : String
  artist_id : String
deriving DecidableEq

/-- A row of `results` (an attribution finding; spec section 3).
`metadata_track_title`, `metadata_artist`, `metadata_duration_seconds` are
the keys of its `metadata` object that jobs/auditor.py reads. -/
structure AttributionResult where
  id : String
  track_id : String
  similarity : ℚ
  created_at : ℚ
  metadata_duration_seconds : Option ℚ
  metadata_track_title : Option String
  metadata_artist : Option String
deriving DecidableEq

/-- A row of `ai_use_logs` (a partner usage log). jobs/auditor.py filters on
`generated_at`; utils/dual_proof.py filters on `created_at`; both fields are
kept. `metadata_tier` is the `metadata["tier"]` key auditor.py reads. -/
structure UsageLog where
  id : String
  track_id : String
  confidence : Option ℚ
  created_at : ℚ
  generated_at : ℚ
  model_id : Option String
  metadata_tier : Option String
deriving DecidableEq

/-- A row of `royalty_events` (utils/royalties.py record layout). -/
structure RoyaltyEvent where
  id : String
  track_id : String
  result_id : String
  ai_use_log_id : String
  event_type : String
  similarity : ℚ
  match_confidence : ℚ
  payout_weight : ℚ
  amount : ℚ
  status : String
  paid_at : Option ℚ
  verified_at : ℚ
deriving DecidableEq

/-- A row of `payouts` (routes/payouts.py). -/
structure Payout where
  id : String
  artist_id : String
  amount_cents : ℤ
  status : String
  tx_hash : Option String
  demo : Option Bool
  created_at : ℚ
  completed_at : Option ℚ
deriving DecidableEq

/-- A row of `payout_items` (routes/payouts.py). -/
structure PayoutItem where
  id : String
  payout_id : String
  event_id : String
  amount_cents : ℤ
  created_at : ℚ
deriving DecidableEq

/-- The datastore: one list per table, in insertion order (`INSERT` appends,
`UPDATE` maps over the list, a query filters it; `data[0]` / `fetchone` is
the head of the filtered list). -/
structure DB where
  tracks : List Track
  results : List AttributionResult
  usage_logs : List UsageLog
  royalty_events : List RoyaltyEvent
  payouts : List Payout
  payout_items : List PayoutItem
deriving DecidableEq

/-! ### server/utils/chain.py — chain abstraction result -/

/-- `PayoutResult` of utils/chain.py: what the external transfer reports. -/
structure PayoutResult where
  tx_hash : String
  success : Bool
  error_message : Option String
deriving DecidableEq

/-! ### server/routes/payouts.py — the settlement engine -/

/-- The error classes `create_payout` raises: 403 identity mismatch,
400 ineligible events, 500 downstream (chain) failure carrying the external
error message (`detail=f"Payout failed: {...}"`). -/
inductive PayoutError where
  | accessDenied
  | badRequest
  | downstreamFailure (msg : Option String)
deriving DecidableEq

/-- An item of the returned receipt (`PayoutItem` pydantic model;
`amount_usd` is the event's raw `amount`, line 260). -/
structure ReceiptItem where
  event_id : String
  amount_cents : ℤ
  amount_usd : ℚ
deriving DecidableEq

/-- The returned `PayoutReceipt` pydantic model. -/
structure Receipt where
  payout_id : String
  artist_id : String
  total_amount_cents : ℤ
  total_amount_usd : ℚ
  tx_hash : String
  demo : Bool
  status : String
  created_at : ℚ
  items : List ReceiptItem
deriving DecidableEq

/-- The `JOIN tracks t ON re.track_id = t.id ... AND t.artist_id = :artist_id`
condition: some track row matches the event's track and the artist. -/
def trackOwnedBy (db : DB) (track_id artist_id : String) : Prop :=
  ∃ t ∈ db.tracks, t.id = track_id ∧ t.artist_id = artist_id

instance (db : DB) (track_id artist_id : String) :
    Decidable (trackOwnedBy db track_id artist_id) := by
  unfold trackOwnedBy; infer_instance

/-- The eligibility re-fetch of `create_payout` (payouts.py lines 194-210):
`id IN event_ids AND t.artist_id = artist_id AND status = 'pending' AND
paid_at IS NULL`, row order of the table. -/
def eligibleEvents (db : DB) (artist_id : String) (event_ids : List String) :
    List RoyaltyEvent :=
  db.royalty_events.filter fun re =>
    decide (re.id ∈ event_ids ∧ trackOwnedBy db re.track_id artist_id ∧
      re.status = "pending" ∧ re.paid_at = none)

/-- Embedding of `create_payout` (payouts.py lines 166-344).

The route body runs inside `async with conn.begin()`: raising an
`HTTPException` aborts the transaction, so an error outcome returns the
ORIGINAL state (rollback) and only the success outcome returns the mutated
state (commit). `uuid4` for the payout row is the `payout_id` parameter, the
per-item `uuid4`s are `item_id_gen` applied to the item's index,
`datetime.now` is `now`, and the outcome of the external
`send_payout` call is the `chain` parameter. -/
def create_payout (db : DB) (auth_sub artist_id : String)
    (event_ids : List String) (chain : PayoutResult)
    (payout_id : String) (item_id_gen : ℕ → String) (now : ℚ) :
    DB × Except PayoutError Receipt :=
  if auth_sub ≠ artist_id then (db, .error .accessDenied)
  else
    let events := eligibleEvents db artist_id event_ids
    if events.length ≠ event_ids.length then (db, .error .badRequest)
    else
      let total_amount_cents := (events.map fun e => pyInt (e.amount * 100)).sum
      let new_payout : Payout :=
        { id := payout_id
          artist_id := artist_id
          amount_cents := total_amount_cents
          status := "pending"
          tx_hash := none
          demo := none
          created_at := now
          completed_at := none }
      let new_items : List PayoutItem := events.enum.map fun p =>
        { id := item_id_gen p.1
          payout_id := payout_id
          event_id := p.2.id
          amount_cents := pyInt (p.2.amount * 100)
          created_at := now }
      if chain.success = false then
        (db, .error (.downstreamFailure chain.error_message))
      else
        let receipt_items : List ReceiptItem := events.map fun e =>
          { event_id := e.id
            amount_cents := pyInt (e.amount * 100)
            amount_usd := e.amount }
        let db1 : DB :=
          { db with
            payouts := (db.payouts ++ [new_payout]).map (fun p =>
              if p.id = payout_id then
                { p with
                  tx_hash := some chain.tx_hash
                  demo := some true
                  status := "completed"
                  completed_at := some now }
              else p)
            payout_items := db.payout_items ++ new_items
            royalty_events := db.royalty_events.map (fun re =>
              if re.id ∈ event_ids then
                { re with paid_at := some now, status := "paid" }
              else re) }
        (db1,
          .ok { payout_id := payout_id
                artist_id := artist_id
                total_amount_cents := total_amount_cents
                total_amount_usd := total_amount_cents / 100
                tx_hash := chain.tx_hash
                demo := true
                status := "completed"
                created_at := now
                items := receipt_items })

/-! ### server/utils/royalties.py — event creation, status update -/

/-- `DualProofMatch` pydantic model (royalties.py lines 20-29). -/
structure DualProofMatch where
  track_id : String
  result_id : String
  ai_use_log_id : String
  similarity : ℚ
  sdk_confidence : ℚ
  track_title : String
  artist : String
  model_id : String
deriving DecidableEq

/-- Embedding of `create_verified_royalty_event` (royalties.py lines
121-228), success path of the insert: computes `match_confidence`
(`similarity*0.6 + sdk_confidence*0.4`), weight and amount, and appends the
event record with `status='pending'`.  `uuid4` is `event_id`,
`datetime.utcnow` is `now`, the `ROYALTY_BASE_RATE` environment variable is
`env_base_rate`. -/
def create_verified_royalty_event (db : DB) (dual_proof : DualProofMatch)
    (duration_seconds : Option ℚ) (model_tier : Option String)
    (event_id : String) (now : ℚ) (env_base_rate : Option ℚ) :
    DB × RoyaltyEvent :=
  let match_confidence :=
    dual_proof.similarity * (6/10) + dual_proof.sdk_confidence * (4/10)
  let payout_weight := calculate_payout_weight dual_proof.similarity
    dual_proof.sdk_confidence duration_seconds model_tier
  let amount := calculate_payout_amount payout_weight none env_base_rate
  let e : RoyaltyEvent :=
    { id := event_id
      track_id := dual_proof.track_id
      result_id := dual_proof.result_id
      ai_use_log_id := dual_proof.ai_use_log_id
      event_type := "dual_proof_verified"
      similarity := dual_proof.similarity
      match_confidence := pyRound match_confidence 3
      payout_weight := pyRound payout_weight 3
      amount := amount
      status := "pending"
      paid_at := none
      verified_at := now }
  ({ db with royalty_events := db.royalty_events ++ [e] }, e)

/-- Embedding of `update_royalty_event_status` (royalties.py lines 258-307),
restricted to the modelled columns: sets `status`, and `paid_at` when the new
status is `'paid'` (the unmodelled `updated_at`/`approved_at`/metadata-merge
columns are not part of the state). -/
def update_royalty_event_status (db : DB) (event_id status : String)
    (now : ℚ) : DB :=
  { db with
    royalty_events := db.royalty_events.map (fun e =>
      if e.id = event_id then
        { e with
          status := status
          paid_at := if status = "paid" then some now else e.paid_at }
      else e) }

/-! ### server/jobs/auditor.py — the royalty-event promoter -/

/-- The auditor configuration (auditor.py `AuditorConfig`), read from the
environment with the documented defaults. -/
structure AuditorConfig where
  similarity_threshold : ℚ
  time_window_hours : ℚ
  batch_size : ℕ
  royalty_base_rate : ℚ
  dry_run : Bool

/-- `find_matching_sdk_logs` (auditor.py lines 102-146): usage logs on the
track whose `generated_at` lies within `time_window_minutes` (default 60 at
every call site) of the result's timestamp. -/
def find_matching_sdk_logs (db : DB) (track_id : String) (result_time : ℚ)
    (time_window_minutes : ℚ) : List UsageLog :=
  db.usage_logs.filter fun log =>
    decide (log.track_id = track_id ∧
      result_time - time_window_minutes ≤ log.generated_at ∧
      log.generated_at ≤ result_time + time_window_minutes)

/-- `check_if_already_processed` (auditor.py lines 148-168): does some
royalty event reference this `result_id`? -/
def check_if_already_processed (db : DB) (result_id : String) : Bool :=
  decide (∃ e ∈ db.royalty_events, e.result_id = result_id)

/-- Embedding of `process_result` (auditor.py lines 170-241): skip when
already processed; find matching usage logs; no logs means no event
(dual proof incomplete); otherwise take the first log, default a missing
`confidence` to `0.9` (`sdk_log.get("confidence", 0.9)`), and, unless
`dry_run`, create the royalty event. Returns the new state and the created
event id (None when nothing was created). -/
def process_result (db : DB) (dry_run : Bool) (env_base_rate : Option ℚ)
    (r : AttributionResult) (event_id : String) (now : ℚ) :
    DB × Option String :=
  if check_if_already_processed db r.id then (db, none)
  else
    match find_matching_sdk_logs db r.track_id r.created_at 60 with
    | [] => (db, none)
    | sdk_log :: _ =>
      let dual_proof : DualProofMatch :=
        { track_id := r.track_id
          result_id := r.id
          ai_use_log_id := sdk_log.id
          similarity := r.similarity
          sdk_confidence := sdk_log.confidence.getD (9/10)
          track_title := r.metadata_track_title.getD "Unknown"
          artist := r.metadata_artist.getD "Unknown"
          model_id := sdk_log.model_id.getD "unknown" }
      if dry_run then (db, none)
      else
        let created := create_verified_royalty_event db dual_proof
          r.metadata_duration_seconds sdk_log.metadata_tier event_id now
          env_base_rate
        (created.1, some created.2.id)

/-- Insert a result into a list sorted by `created_at` descending (the
`ORDER BY created_at DESC` of `fetch_recent_results`). -/
def insertByCreatedDesc (r : AttributionResult) :
    List AttributionResult → List AttributionResult
  | [] => [r]
  | x :: xs =>
    if x.created_at ≤ r.created_at then r :: x :: xs
    else x :: insertByCreatedDesc r xs

/-- Sort results by `created_at` descending. -/
def sortByCreatedDesc : List AttributionResult → List AttributionResult
  | [] => []
  | x :: xs => insertByCreatedDesc x (sortByCreatedDesc xs)

/-- `fetch_recent_results` (auditor.py lines 70-100): results with
similarity at or above the threshold created within the last
`time_window_hours`, newest first, at most `batch_size` of them.
`now` is `datetime.utcnow()`. -/
def fetch_recent_results (db : DB) (cfg : AuditorConfig) (now : ℚ) :
    List AttributionResult :=
  let cutoff := now - cfg.time_window_hours * 60
  (sortByCreatedDesc (db.results.filter fun r =>
    decide (cfg.similarity_threshold ≤ r.similarity ∧
      cutoff ≤ r.created_at))).take cfg.batch_size

/-- The statistics dictionary of `run_audit_cycle` (auditor.py lines
255-262). The `errors` counter stays 0: the embedded datastore cannot
raise, so the `except` arm of the loop is unreachable. -/
structure AuditStats where
  processed : ℕ
  matched : ℕ
  events_created : ℕ
  already_processed : ℕ
  no_sdk_log : ℕ
  errors : ℕ
deriving DecidableEq

/-- The all-zero statistics the cycle starts from. -/
def initStats : AuditStats :=
  { processed := 0
    matched := 0
    events_created := 0
    already_processed := 0
    no_sdk_log := 0
    errors := 0 }

/-- The per-result loop of `run_audit_cycle` (auditor.py lines 271-298):
for each fetched result (paired with the uuid its event would get), count it
processed; skip counted `already_processed` when a royalty event references
it; otherwise run `process_result`, counting `matched`/`events_created` on
creation, and re-query the usage logs to count `no_sdk_log` when none
matched. -/
def audit_loop (dry_run : Bool) (env_base_rate : Option ℚ) (now : ℚ) :
    List (AttributionResult × String) → DB → AuditStats → DB × AuditStats
  | [], db, stats => (db, stats)
  | (r, eid) :: rest, db, stats =>
    let stats1 := { stats with processed := stats.processed + 1 }
    if check_if_already_processed db r.id then
      audit_loop dry_run env_base_rate now rest db
        { stats1 with already_processed := stats1.already_processed + 1 }
    else
      let step := process_result db dry_run env_base_rate r eid now
      match step.2 with
      | some _ =>
        audit_loop dry_run env_base_rate now rest step.1
          { stats1 with
            matched := stats1.matched + 1
            events_created := stats1.events_created + 1 }
      | none =>
        let sdk_logs := find_matching_sdk_logs step.1 r.track_id r.created_at 60
        audit_loop dry_run env_base_rate now rest step.1
          (if sdk_logs.isEmpty then
            { stats1 with no_sdk_log := stats1.no_sdk_log + 1 }
          else stats1)

/-- Embedding of `run_audit_cycle` (auditor.py lines 243-312): fetch recent
results and run the loop from zero statistics. `id_gen i` is the uuid of the
event the `i`-th fetched result would create. -/
def run_audit_cycle (db : DB) (cfg : AuditorConfig) (env_base_rate : Option ℚ)
    (id_gen : ℕ → String) (now : ℚ) : DB × AuditStats :=
  let results := fetch_recent_results db cfg now
  audit_loop cfg.dry_run env_base_rate now
    (results.enum.map fun p => (p.2, id_gen p.1)) db initStats

/-- The inputs one audit cycle consumes from its environment. -/
structure CycleInput where
  cfg : AuditorConfig
  env_base_rate : Option ℚ
  id_gen : ℕ → String
  now : ℚ

/-- Sequential runs of the promoter's audit cycle (auditor.py
`run_continuous` / repeated `--once` invocations), one `CycleInput` per
cycle. -/
def run_cycles : List CycleInput → DB → DB
  | [], db => db
  | c :: cs, db =>
    run_cycles cs (run_audit_cycle db c.cfg c.env_base_rate c.id_gen c.now).1

/-! ### server/utils/dual_proof.py — the dual-proof correlator -/

/-- `DUAL_PROOF_WINDOW_MINUTES` (dual_proof.py line 24), environment default
10. -/
def DUAL_PROOF_WINDOW_MINUTES : ℚ := 10

/-- `DUAL_PROOF_THRESHOLD` (dual_proof.py line 25), environment default
0.85. -/
def DUAL_PROOF_THRESHOLD : ℚ := 85/100

/-- The `DualProofResult` TypedDict (dual_proof.py lines 28-34). -/
structure DualProofResult where
  status : String
  sdk_log_id : Option String
  result_id : Option String
  royalty_event_id : Option String
  similarity : Option ℚ
  sdk_confidence : Option ℚ
deriving DecidableEq

/-- Embedding of `get_dual_proof_status_for_result` (dual_proof.py lines
37-140): load the result by id (`data[0]` = head of the filtered table);
below-threshold similarity is `"none"` BEFORE any royalty-event check; then a
royalty event referencing the result on its track means `"confirmed"` (the
SDK confidence resolved through the event's `ai_use_log_id`); otherwise a
usage log on the track with `created_at` inside the ±10-minute window means
`"pending"`; otherwise `"none"`. -/
def get_dual_proof_status_for_result (db : DB) (result_id : String) :
    DualProofResult :=
  match db.results.filter (fun r => decide (r.id = result_id)) with
  | [] =>
    { status := "none"
      sdk_log_id := none
      result_id := some result_id
      royalty_event_id := none
      similarity := none
      sdk_confidence := none }
  | result :: _ =>
    let track_id := result.track_id
    let similarity := result.similarity
    if similarity < DUAL_PROOF_THRESHOLD then
      { status := "none"
        sdk_log_id := none
        result_id := some result_id
        royalty_event_id := none
        similarity := some similarity
        sdk_confidence := none }
    else
      match db.royalty_events.filter (fun e =>
          decide (e.result_id = result_id ∧ e.track_id = track_id)) with
      | event :: _ =>
        let sdk_log_id := event.ai_use_log_id
        let sdk_confidence :=
          match db.usage_logs.filter (fun l => decide (l.id = sdk_log_id)) with
          | [] => none
          | l :: _ => l.confidence
        { status := "confirmed"
          sdk_log_id := some sdk_log_id
          result_id := some result_id
          royalty_event_id := some event.id
          similarity := some similarity
          sdk_confidence := sdk_confidence }
      | [] =>
        match db.usage_logs.filter (fun l =>
            decide (l.track_id = track_id ∧
              result.created_at - DUAL_PROOF_WINDOW_MINUTES ≤ l.created_at ∧
              l.created_at ≤ result.created_at + DUAL_PROOF_WINDOW_MINUTES)) with
        | log :: _ =>
          { status := "pending"
            sdk_log_id := some log.id
            result_id := some result_id
            royalty_event_id := none
            similarity := some similarity
            sdk_confidence := log.confidence }
        | [] =>
          { status := "none"
            sdk_log_id := none
            result_id := some result_id
            royalty_event_id := none
            similarity := some similarity
            sdk_confidence := none }

/-- Embedding of `get_dual_proof_status_for_sdk_log` (dual_proof.py lines
185-263): load the log by id; a royalty event referencing the log on its
track means `"confirmed"` (NO similarity-threshold check on this side);
otherwise a result on the track inside the ±10-minute window with similarity
at or above threshold means `"pending"`; otherwise `"none"`. -/
def get_dual_proof_status_for_sdk_log (db : DB) (log_id : String) :
    DualProofResult :=
  match db.usage_logs.filter (fun l => decide (l.id = log_id)) with
  | [] =>
    { status := "none"
      sdk_log_id := some log_id
      result_id := none
      royalty_event_id := none
      similarity := none
      sdk_confidence := none }
  | log :: _ =>
    match db.royalty_events.filter (fun e =>
        decide (e.ai_use_log_id = log_id ∧ e.track_id = log.track_id)) with
    | event :: _ =>
      { status := "confirmed"
        sdk_log_id := some log_id
        result_id := some event.result_id
        royalty_event_id := some event.id
        similarity := some event.similarity
        sdk_confidence := log.confidence }
    | [] =>
      match db.results.filter (fun r =>
          decide (r.track_id = log.track_id ∧
            log.created_at - DUAL_PROOF_WINDOW_MINUTES ≤ r.created_at ∧
            r.created_at ≤ log.created_at + DUAL_PROOF_WINDOW_MINUTES ∧
            DUAL_PROOF_THRESHOLD ≤ r.similarity)) with
      | result :: _ =>
        { status := "pending"
          sdk_log_id := some log_id
          result_id := some result.id
          royalty_event_id := none
          similarity := some result.similarity
          sdk_confidence := log.confidence }
      | [] =>
        { status := "none"
          sdk_log_id := some log_id
          result_id := none
          royalty_event_id := none
          similarity := none
          sdk_confidence := log.confidence }

/-! ### SHA-256 (hashlib.sha256), on natural numbers reduced mod 2^32 -/

/-- 32-bit truncation. -/
def m32 (n : ℕ) : ℕ := n % 2 ^ 32

/-- 32-bit right rotation. -/
def rotr32 (n x : ℕ) : ℕ := m32 ((x >>> n) ||| (x <<< (32 - n)))

/-- Bitwise complement on 32 bits. -/
def not32 (x : ℕ) : ℕ := 2 ^ 32 - 1 - x

/-- SHA-256 small sigma 0. -/
def ssig0 (x : ℕ) : ℕ := (rotr32 7 x) ^^^ (rotr32 18 x) ^^^ (x >>> 3)

/-- SHA-256 small sigma 1. -/
def ssig1 (x : ℕ) : ℕ := (rotr32 17 x) ^^^ (rotr32 19 x) ^^^ (x >>> 10)

/-- SHA-256 big sigma 0. -/
def bsig0 (x : ℕ) : ℕ := (rotr32 2 x) ^^^ (rotr32 13 x) ^^^ (rotr32 22 x)

/-- SHA-256 big sigma 1. -/
def bsig1 (x : ℕ) : ℕ := (rotr32 6 x) ^^^ (rotr32 11 x) ^^^ (rotr32 25 x)

/-- The SHA-256 round constants (FIPS 180-4, written in decimal). -/
def sha256K : List ℕ :=
  [1116352408, 1899447441, 3049323471, 3921009573,
   961987163, 1508970993, 2453635748, 2870763221,
   3624381080, 310598401, 607225278, 1426881987,
   1925078388, 2162078206, 2614888103, 3248222580,
   3835390401, 4022224774, 264347078, 604807628,
   770255983, 1249150122, 1555081692, 1996064986,
   2554220882, 2821834349, 2952996808, 3210313671,
   3336571891, 3584528711, 113926993, 338241895,
   666307205, 773529912, 1294757372, 1396182291,
   1695183700, 1986661051, 2177026350, 2456956037,
   2730485921, 2820302411, 3259730800, 3345764771,
   3516065817, 3600352804, 4094571909, 275423344,
   430227734, 506948616, 659060556, 883997877,
   958139571, 1322822218, 1537002063, 1747873779,
   1955562222, 2024104815, 2227730452, 2361852424,
   2428436474, 2756734187, 3204031479, 3329325298]

/-- The SHA-256 initial hash value (FIPS 180-4, written in decimal). -/
def sha256H0 : List ℕ :=
  [1779033703, 3144134277, 1013904242, 2773480762,
   1359893119, 2600822924, 528734635, 1541459225]

/-- SHA-256 padding of a byte message: append `0x80`, zeros, and the 8-byte
big-endian bit length, to a multiple of 64 bytes. -/
def sha256Pad (msg : List ℕ) : List ℕ :=
  let bitlen := 8 * msg.length
  let zeros := (64 - ((msg.length + 9) % 64)) % 64
  msg ++ [0x80] ++ List.replicate zeros 0 ++
    [(bitlen >>> 56) % 256, (bitlen >>> 48) % 256, (bitlen >>> 40) % 256,
     (bitlen >>> 32) % 256, (bitlen >>> 24) % 256, (bitlen >>> 16) % 256,
     (bitlen >>> 8) % 256, bitlen % 256]

/-- Big-endian 32-bit words from bytes. -/
def wordsOfBytes : List ℕ → List ℕ
  | b0 :: b1 :: b2 :: b3 :: rest =>
    (b0 * 2 ^ 24 + b1 * 2 ^ 16 + b2 * 2 ^ 8 + b3) :: wordsOfBytes rest
  | _ => []

/-- Split into 64-byte blocks. -/
def chunks64 : List ℕ → List (List ℕ)
  | [] => []
  | x :: xs => ((x :: xs).take 64) :: chunks64 ((x :: xs).drop 64)
termination_by l => l.length
decreasing_by simp; omega

/-- Message-schedule extension, on the reversed word list (most recent
first): 48 new words from w[i-2], w[i-7], w[i-15], w[i-16]. -/
def extendLoop : ℕ → List ℕ → List ℕ
  | 0, rw => rw
  | n + 1, rw =>
    let w := m32 (ssig1 (rw.getD 1 0) + rw.getD 6 0 +
      ssig0 (rw.getD 14 0) + rw.getD 15 0)
    extendLoop n (w :: rw)

/-- The 64-entry message schedule of one block. -/
def messageSchedule (block : List ℕ) : List ℕ :=
  (extendLoop 48 (wordsOfBytes block).reverse).reverse

/-- One SHA-256 compression round: state `[a,b,c,d,e,f,g,h]`, round input
`(k, w)`. -/
def sha256Round (st : List ℕ) (kw : ℕ × ℕ) : List ℕ :=
  let a := st.getD 0 0
  let b := st.getD 1 0
  let c := st.getD 2 0
  let d := st.getD 3 0
  let e := st.getD 4 0
  let f := st.getD 5 0
  let g := st.getD 6 0
  let h := st.getD 7 0
  let ch := (e &&& f) ^^^ (not32 e &&& g)
  let maj := (a &&& b) ^^^ (a &&& c) ^^^ (b &&& c)
  let t1 := m32 (h + bsig1 e + ch + kw.1 + kw.2)
  let t2 := m32 (bsig0 a + maj)
  [m32 (t1 + t2), a, b, c, m32 (d + t1), e, f, g]

/-- Compress one 64-byte block into the running hash. -/
def sha256Block (h : List ℕ) (block : List ℕ) : List ℕ :=
  let st := (sha256K.zip (messageSchedule block)).foldl sha256Round h
  (h.zip st).map fun p => m32 (p.1 + p.2)

/-- A hexadecimal digit. -/
def hexDigit (n : ℕ) : Char :=
  if n < 10 then Char.ofNat (48 + n) else Char.ofNat (87 + n)

/-- Lowercase 8-hex-digit rendering of a 32-bit word. -/
def hex32 (n : ℕ) : String :=
  String.mk [hexDigit ((n >>> 28) % 16), hexDigit ((n >>> 24) % 16),
    hexDigit ((n >>> 20) % 16), hexDigit ((n >>> 16) % 16),
    hexDigit ((n >>> 12) % 16), hexDigit ((n >>> 8) % 16),
    hexDigit ((n >>> 4) % 16), hexDigit (n % 16)]

/-- `hashlib.sha256(bytes).hexdigest()`: the hex digest of a byte list. -/
def sha256Hex (msg : List ℕ) : String :=
  String.join (((chunks64 (sha256Pad msg)).foldl sha256Block sha256H0).map hex32)

/-- `s.encode('utf-8')` for the ASCII strings the proof payloads are built
from: the code points of the characters. -/
def strBytes (s : String) : List ℕ := s.data.map Char.toNat

/-! ### Python float formatting (CPython `str(float)`)

The payload f-strings interpolate machine floats with CPython's default
(shortest round-trip repr) formatting. Floats are embedded as the decimal
rationals they denote; on every value whose decimal expansion terminates
within double precision (all amounts and confidences the system produces,
which are `round(..., k)` results), CPython's repr is exactly the minimal
decimal rendering with at least one fractional digit, which is what
`pyFloatStr` computes. -/

/-- Fuel-bounded search for the least number of decimal digits after the
point needed to write `q` exactly (`q.den` is always enough fuel for a
terminating expansion). -/
def decExpAux : ℕ → ℚ → ℕ
  | 0, _ => 0
  | fuel + 1, q => if q.den = 1 then 0 else 1 + decExpAux fuel (q * 10)

/-- Number of fractional decimal digits of a terminating rational. -/
def decExp (q : ℚ) : ℕ := decExpAux q.den q

/-- Left-pad a numeral with zeros to `n` characters. -/
def zeroPad (s : String) (n : ℕ) : String :=
  String.mk (List.replicate (n - s.length) '0') ++ s

/-- CPython `str(x)` / `f"{x}"` of a float, on decimal-exact values: sign,
minimal integer part, a point, and the minimal fractional digits (at least
one, so `10.0` renders as `"10.0"` and `0.25` as `"0.25"`). -/
def pyFloatStr (q : ℚ) : String :=
  let sign := if q < 0 then "-" else ""
  let a := |q|
  let n := max (decExp a) 1
  let scaled := (a * 10 ^ n).num.toNat
  sign ++ toString (scaled / 10 ^ n) ++ "." ++
    zeroPad (toString (scaled % 10 ^ n)) n

/-- Fixed-precision stringification at `p` fractional digits (what the spec
prescribes for numeric inputs of the proof hash: Python `f"{x:.pf}"`,
round-half-even, exactly `p` digits after the point). -/
def fixedPrecStr (p : ℕ) (q : ℚ) : String :=
  let sign := if q < 0 then "-" else ""
  let scaled := (roundHalfEven (|q| * 10 ^ p)).toNat
  if p = 0 then sign ++ toString scaled
  else
    sign ++ toString (scaled / 10 ^ p) ++ "." ++
      zeroPad (toString (scaled % 10 ^ p)) p

/-! ### server/utils/compliance.py and server/utils/security.py — proof
hashes -/

/-- The payload string of `compute_event_proof_hash` (compliance.py lines
107-128): `f"{event_id}|{track_id}|{amount}|{confidence}|{tx_hash or
'unverified'}"` — the floats pass through default repr formatting, and a
falsy `tx_hash` (None or empty) becomes `'unverified'`. -/
def eventProofData (event_id track_id : String) (amount confidence : ℚ)
    (tx_hash : Option String) : String :=
  event_id ++ "|" ++ track_id ++ "|" ++ pyFloatStr amount ++ "|" ++
    pyFloatStr confidence ++ "|" ++
    (match tx_hash with
     | some h => if h = "" then "unverified" else h
     | none => "unverified")

/-- `compute_event_proof_hash` (compliance.py lines 107-128): SHA-256 hex
digest of the payload. -/
def compute_event_proof_hash (event_id track_id : String)
    (amount confidence : ℚ) (tx_hash : Option String) : String :=
  sha256Hex (strBytes (eventProofData event_id track_id amount confidence
    tx_hash))

/-- The payload of `compute_proof_hash` (security.py lines 217-232):
`f"{sdk_log_id}|{result_id}|{verified_at.isoformat()}"`; the timestamp's
ISO rendering is taken as a string. -/
def proofHashPayload (sdk_log_id result_id verified_at_iso : String) :
    String :=
  sdk_log_id ++ "|" ++ result_id ++ "|" ++ verified_at_iso

/-- `compute_proof_hash` (security.py lines 217-232). -/
def compute_proof_hash (sdk_log_id result_id verified_at_iso : String) :
    String :=
  sha256Hex (strBytes (proofHashPayload sdk_log_id result_id
    verified_at_iso))

/-! ## Theorems -/

/-- C6: `calculate_payout_weight` equals the spec's
`clamp(base_weight * duration_multiplier * model_multiplier, 0, 1)` formula
(it is a total Lean function of its arguments, hence deterministic,
side-effect free and never throwing); the unit cases
`weight(1, 1, 300s, premium) = 1` and
`weight(1, 1, 60s, standard) = base_weight * (60/180)` hold; and
`calculate_payout_amount` is `round(weight * base_rate, 2)` with the base
rate defaulting to 10.0, so a full weight pays 10.0. -/
theorem payout_weight_matches_spec_formula :
    (∀ s c d t, calculate_payout_weight s c d t = specPayoutWeight s c d t)
    ∧ calculate_payout_weight 1 1 (some 300) (some "premium") = 1
    ∧ calculate_payout_weight 1 1 (some 60) (some "standard")
        = (1 * (6/10) + 1 * (4/10)) * (60/180)
    ∧ (∀ w br env, calculate_payout_amount w br env
        = pyRound (w * (br.getD (env.getD 10))) 2)
    ∧ calculate_payout_amount 1 none none = 10 := by
  refine ⟨fun s c d t => rfl, ?_, ?_, fun w br env => rfl, ?_⟩
  · show max 0 (min 1 ((1 * (6/10) + 1 * (4/10)) * min ((300:ℚ)/180) 1 *
      (12/10))) = 1
    norm_num [min_def, max_def]
  · show max 0 (min 1 ((1 * (6/10) + 1 * (4/10)) * min ((60:ℚ)/180) 1 *
      1)) = (1 * (6/10) + 1 * (4/10)) * (60/180)
    norm_num [min_def, max_def]
  · show pyRound ((1:ℚ) * 10) 2 = 10
    norm_num [pyRound, roundHalfEven]

/-- C1: with the caller authorized and the requested events eligible, a
chain-abstraction failure makes `create_payout` return the downstream
(500) error carrying the external message, and the returned state is the
ORIGINAL one: the transaction is rolled back, so no Payout, PayoutItem or
RoyaltyEvent change survives. -/
theorem settlement_chain_failure_rolls_back
    (db : DB) (artist : String) (ids : List String) (chain : PayoutResult)
    (pid : String) (gen : ℕ → String) (now : ℚ)
    (helig : (eligibleEvents db artist ids).length = ids.length)
    (hfail : chain.success = false) :
    create_payout db artist artist ids chain pid gen now
      = (db, .error (.downstreamFailure chain.error_message)) := by
  simp [create_payout, helig, hfail]

/-- Sample state for the chain-failure witness: one artist owning one track
with two pending, unpaid royalty events. -/
def chainFailDB : DB :=
  { tracks := [{ id := "t1", artist_id := "a1" }]
    results := []
    usage_logs := []
    royalty_events :=
      [{ id := "e1"
         track_id := "t1"
         result_id := "r1"
         ai_use_log_id := "l1"
         event_type := "dual_proof_verified"
         similarity := 9/10
         match_confidence := 9/10
         payout_weight := 9/10
         amount := 5/2
         status := "pending"
         paid_at := none
         verified_at := 0 },
       { id := "e2"
         track_id := "t1"
         result_id := "r2"
         ai_use_log_id := "l2"
         event_type := "dual_proof_verified"
         similarity := 9/10
         match_confidence := 9/10
         payout_weight := 9/10
         amount := 3
         status := "pending"
         paid_at := none
         verified_at := 0 }]
    payouts := []
    payout_items := [] }

/-- The reporting chain failure used by the witness. -/
def chainFailResult : PayoutResult :=
  { tx_hash := "", success := false, error_message := some "insufficient funds" }

/-- Witness for C1 at a concrete state: two eligible events, failing chain. -/
theorem settlement_chain_failure_rolls_back_witness :
    (eligibleEvents chainFailDB "a1" ["e1", "e2"]).length = ["e1", "e2"].length
    ∧ chainFailResult.success = false
    ∧ create_payout chainFailDB "a1" "a1" ["e1", "e2"] chainFailResult "p1"
        (fun i => "item" ++ toString i) 5
      = (chainFailDB,
         .error (.downstreamFailure (some "insufficient funds"))) :=
  have h1 : (eligibleEvents chainFailDB "a1" ["e1", "e2"]).length
      = ["e1", "e2"].length := by decide
  ⟨h1, rfl,
   settlement_chain_failure_rolls_back chainFailDB "a1" ["e1", "e2"]
     chainFailResult "p1" (fun i => "item" ++ toString i) 5 h1 rfl⟩

/-- C9: when `event_ids` repeats an id, the eligibility re-fetch (which
returns each stored row once) cannot return `len(event_ids)` rows — the
table's ids being unique — so the call fails 400 and the state is returned
unchanged, whatever the status of the referenced events. -/
theorem settlement_duplicate_ids_rejected
    (db : DB) (artist : String) (ids : List String) (chain : PayoutResult)
    (pid : String) (gen : ℕ → String) (now : ℚ)
    (hkey : (db.royalty_events.map RoyaltyEvent.id).Nodup)
    (hdup : ¬ ids.Nodup) :
    create_payout db artist artist ids chain pid gen now
      = (db, .error .badRequest) := by
  have hlt : (eligibleEvents db artist ids).length < ids.length := by
    have hsub : (eligibleEvents db artist ids).map RoyaltyEvent.id
        ⊆ ids.dedup := by
      intro x hx
      rw [List.mem_map] at hx
      obtain ⟨e, he, rfl⟩ := hx
      rw [eligibleEvents, List.mem_filter, decide_eq_true_eq] at he
      exact List.mem_dedup.mpr he.2.1
    have hnd : ((eligibleEvents db artist ids).map RoyaltyEvent.id).Nodup :=
      (List.Sublist.map RoyaltyEvent.id
        (List.filter_sublist db.royalty_events)).nodup hkey
    have hle : (eligibleEvents db artist ids).length ≤ ids.dedup.length := by
      have := List.Subperm.length_le (List.subperm_of_subset hnd hsub)
      simpa using this
    have hddlt : ids.dedup.length < ids.length := by
      rcases Nat.lt_or_ge ids.dedup.length ids.length with h | h
      · exact h
      · have hlen : ids.dedup.length = ids.length :=
          Nat.le_antisymm (List.Sublist.length_le (List.dedup_sublist ids)) h
        exact absurd (List.dedup_eq_self.mp
          ((List.dedup_sublist ids).eq_of_length hlen)) hdup
    exact Nat.lt_of_le_of_lt hle hddlt
  simp [create_payout, Nat.ne_of_lt hlt]

/-- Sample state for the duplicate-ids witness: the same single pending,
unpaid, owned event requested twice. -/
def dupIdsDB : DB :=
  { tracks := [{ id := "t1", artist_id := "a1" }]
    results := []
    usage_logs := []
    royalty_events :=
      [{ id := "e1"
         track_id := "t1"
         result_id := "r1"
         ai_use_log_id := "l1"
         event_type := "dual_proof_verified"
         similarity := 9/10
         match_confidence := 9/10
         payout_weight := 9/10
         amount := 5/2
         status := "pending"
         paid_at := none
         verified_at := 0 }]
    payouts := []
    payout_items := [] }

/-- Witness for C9: `event_ids = ["e1", "e1"]` with `e1` pending, unpaid and
owned by the caller still yields 400 and no state change. -/
theorem settlement_duplicate_ids_rejected_witness :
    (dupIdsDB.royalty_events.map RoyaltyEvent.id).Nodup
    ∧ ¬ ["e1", "e1"].Nodup
    ∧ create_payout dupIdsDB "a1" "a1" ["e1", "e1"]
        { tx_hash := "demo_1", success := true, error_message := none }
        "p1" (fun i => "item" ++ toString i) 5
      = (dupIdsDB, .error .badRequest) :=
  have h1 : (dupIdsDB.royalty_events.map RoyaltyEvent.id).Nodup := by decide
  have h2 : ¬ ["e1", "e1"].Nodup := by decide
  ⟨h1, h2,
   settlement_duplicate_ids_rejected dupIdsDB "a1" ["e1", "e1"]
     { tx_hash := "demo_1", success := true, error_message := none }
     "p1" (fun i => "item" ++ toString i) 5 h1 h2⟩

/-- After a successful `create_payout`, the royalty-event table is the old
one with every listed event marked `paid` (helper for C2). -/
lemma create_payout_success_events (db : DB) (artist : String)
    (ids : List String) (chain : PayoutResult) (pid : String)
    (gen : ℕ → String) (now : ℚ)
    (helig : (eligibleEvents db artist ids).length = ids.length)
    (hchain : chain.success = true) :
    (create_payout db artist artist ids chain pid gen now).1.royalty_events
      = db.royalty_events.map (fun re =>
          if re.id ∈ ids then { re with paid_at := some now, status := "paid" }
          else re)
    ∧ ∃ rc, (create_payout db artist artist ids chain pid gen now).2
        = .ok rc := by
  constructor
  · simp [create_payout, helig, hchain]
  · simp [create_payout, helig, hchain]

/-- C2: with the events eligible and the chain succeeding, the first
`create_payout` returns a receipt and leaves every listed event with
`status='paid'` and `paid_at` set; re-running the same request against the
resulting state fails the 400 eligibility validation (the events are no
longer pending) and creates no second Payout or PayoutItem — the state is
returned unchanged. -/
theorem settlement_second_call_fails_validation
    (db : DB) (artist : String) (ids : List String)
    (chain chain2 : PayoutResult) (pid pid2 : String)
    (gen gen2 : ℕ → String) (now now2 : ℚ)
    (hne : ids ≠ [])
    (helig : (eligibleEvents db artist ids).length = ids.length)
    (hchain : chain.success = true) :
    (∃ rc, (create_payout db artist artist ids chain pid gen now).2 = .ok rc)
    ∧ (∀ e ∈ (create_payout db artist artist ids chain pid gen now).1.royalty_events,
        e.id ∈ ids → e.status = "paid" ∧ e.paid_at = some now)
    ∧ create_payout (create_payout db artist artist ids chain pid gen now).1
        artist artist ids chain2 pid2 gen2 now2
      = ((create_payout db artist artist ids chain pid gen now).1,
         .error .badRequest) := by
  obtain ⟨hevents, hok⟩ := create_payout_success_events db artist ids chain
    pid gen now helig hchain
  refine ⟨hok, ?_, ?_⟩
  · intro e he hid
    rw [hevents, List.mem_map] at he
    obtain ⟨re, _, rfl⟩ := he
    by_cases h : re.id ∈ ids
    · simp [h]
    · rw [if_neg h] at hid ⊢
      exact absurd hid h
  · set db1 := (create_payout db artist artist ids chain pid gen now).1
      with hdb1
    have hempty : eligibleEvents db1 artist ids = [] := by
      rw [eligibleEvents, List.filter_eq_nil_iff]
      intro e he
      rw [hevents, List.mem_map] at he
      obtain ⟨re, _, rfl⟩ := he
      rw [decide_eq_true_eq]
      rintro ⟨hid, -, hstat, -⟩
      by_cases h : re.id ∈ ids
      · rw [if_pos h] at hstat
        simp at hstat
      · rw [if_neg h] at hid
        exact absurd hid h
    have hlen : (eligibleEvents db1 artist ids).length ≠ ids.length := by
      rw [hempty]
      simp only [List.length_nil]
      exact fun h => hne (List.length_eq_zero.mp h.symm)
    simp [create_payout, hlen]

/-- Witness for C2 at the chain-failure sample state but with a succeeding
chain: paying `["e1", "e2"]` once succeeds; paying them again fails 400. -/
theorem settlement_second_call_fails_validation_witness :
    (["e1", "e2"] : List String) ≠ []
    ∧ (eligibleEvents chainFailDB "a1" ["e1", "e2"]).length
        = ["e1", "e2"].length
    ∧ (∃ rc, (create_payout chainFailDB "a1" "a1" ["e1", "e2"]
        { tx_hash := "demo_ok", success := true, error_message := none }
        "p1" (fun i => "item" ++ toString i) 5).2 = .ok rc)
    ∧ create_payout
        (create_payout chainFailDB "a1" "a1" ["e1", "e2"]
          { tx_hash := "demo_ok", success := true, error_message := none }
          "p1" (fun i => "item" ++ toString i) 5).1
        "a1" "a1" ["e1", "e2"]
        { tx_hash := "demo_ok2", success := true, error_message := none }
        "p2" (fun i => "itemb" ++ toString i) 9
      = ((create_payout chainFailDB "a1" "a1" ["e1", "e2"]
          { tx_hash := "demo_ok", success := true, error_message := none }
          "p1" (fun i => "item" ++ toString i) 5).1,
         .error .badRequest) :=
  have h0 : (["e1", "e2"] : List String) ≠ [] := by decide
  have h1 : (eligibleEvents chainFailDB "a1" ["e1", "e2"]).length
      = ["e1", "e2"].length := by decide
  have h := settlement_second_call_fails_validation chainFailDB "a1"
    ["e1", "e2"]
    { tx_hash := "demo_ok", success := true, error_message := none }
    { tx_hash := "demo_ok2", success := true, error_message := none }
    "p1" "p2" (fun i => "item" ++ toString i) (fun i => "itemb" ++ toString i)
    5 9 h0 h1 rfl
  ⟨h0, h1, h.1, h.2.2⟩

/-- The C5 invariant: every payout's `amount_cents` equals the sum of the
`amount_cents` of the payout items referencing it. -/
def payoutSumInvariant (db : DB) : Prop :=
  ∀ p ∈ db.payouts,
    p.amount_cents
      = ((db.payout_items.filter (fun it => decide (it.payout_id = p.id))).map
          PayoutItem.amount_cents).sum

/-- `process_result` never touches the payout tables (nor tracks, results or
usage logs). -/
lemma process_result_stable (db : DB) (d : Bool) (e : Option ℚ)
    (r : AttributionResult) (eid : String) (now : ℚ) :
    (process_result db d e r eid now).1.tracks = db.tracks
    ∧ (process_result db d e r eid now).1.results = db.results
    ∧ (process_result db d e r eid now).1.usage_logs = db.usage_logs
    ∧ (process_result db d e r eid now).1.payouts = db.payouts
    ∧ (process_result db d e r eid now).1.payout_items = db.payout_items := by
  by_cases hc : check_if_already_processed db r.id
  · simp [process_result, hc]
  · cases hlogs : find_matching_sdk_logs db r.track_id r.created_at 60 with
    | nil => simp [process_result, hc, hlogs]
    | cons l ls =>
      cases d <;> simp [process_result, hc, hlogs, create_verified_royalty_event]

/-- The audit loop never touches the payout tables. -/
lemma audit_loop_stable (d : Bool) (e : Option ℚ) (now : ℚ)
    (entries : List (AttributionResult × String)) (db : DB)
    (stats : AuditStats) :
    (audit_loop d e now entries db stats).1.payouts = db.payouts
    ∧ (audit_loop d e now entries db stats).1.payout_items
        = db.payout_items := by
  induction entries generalizing db stats with
  | nil => exact ⟨rfl, rfl⟩
  | cons p rest ih =>
    obtain ⟨r, eid⟩ := p
    rw [audit_loop]
    by_cases hc : check_if_already_processed db r.id
    · rw [if_pos hc]
      exact ih db _
    · rw [if_neg hc]
      obtain ⟨-, -, -, hp, hpi⟩ := process_result_stable db d e r eid now
      cases hstep : (process_result db d e r eid now).2 with
      | some s =>
        simp only [hstep]
        obtain ⟨ih1, ih2⟩ := ih (process_result db d e r eid now).1 _
        exact ⟨ih1.trans hp, ih2.trans hpi⟩
      | none =>
        simp only [hstep]
        obtain ⟨ih1, ih2⟩ := ih (process_result db d e r eid now).1 _
        exact ⟨ih1.trans hp, ih2.trans hpi⟩

/-- C5: `payoutSumInvariant` — every payout's `amount_cents` equals the sum
of its items' `amount_cents` — holds of the state a successful
`create_payout` commits (the freshly created payout included, its id being
fresh) and is preserved by every other mutating operation of the core: the
error outcomes of `create_payout`, a whole audit cycle of the promoter, and
`update_royalty_event_status`. -/
theorem payout_amount_equals_item_sum
    (db : DB) (artist : String) (ids : List String) (chain : PayoutResult)
    (pid : String) (gen : ℕ → String) (now : ℚ)
    (cfg : AuditorConfig) (env : Option ℚ) (idg : ℕ → String) (cnow : ℚ)
    (eid st : String) (unow : ℚ)
    (hinv : payoutSumInvariant db)
    (hfresh1 : ∀ p ∈ db.payouts, p.id ≠ pid)
    (hfresh2 : ∀ it ∈ db.payout_items, it.payout_id ≠ pid) :
    payoutSumInvariant (create_payout db artist artist ids chain pid gen now).1
    ∧ payoutSumInvariant (run_audit_cycle db cfg env idg cnow).1
    ∧ payoutSumInvariant (update_royalty_event_status db eid st unow) := by
  refine ⟨?_, ?_, ?_⟩
  · by_cases helig : (eligibleEvents db artist ids).length = ids.length
    · by_cases hchain : chain.success = false
      · rw [show (create_payout db artist artist ids chain pid gen now).1 = db
            by simp [create_payout, helig, hchain]]
        exact hinv
      · have hred : (create_payout db artist artist ids chain pid gen now).1
            = { db with
                payouts := (db.payouts ++
                  [({ id := pid
                      artist_id := artist
                      amount_cents := ((eligibleEvents db artist ids).map
                        fun e => pyInt (e.amount * 100)).sum
                      status := "pending"
                      tx_hash := none
                      demo := none
                      created_at := now
                      completed_at := none } : Payout)]).map (fun p =>
                    if p.id = pid then
                      { p with
                        tx_hash := some chain.tx_hash
                        demo := some true
                        status := "completed"
                        completed_at := some now }
                    else p)
                payout_items := db.payout_items ++
                  (eligibleEvents db artist ids).enum.map (fun q =>
                    ({ id := gen q.1
                       payout_id := pid
                       event_id := q.2.id
                       amount_cents := pyInt (q.2.amount * 100)
                       created_at := now } : PayoutItem))
                royalty_events := db.royalty_events.map (fun re =>
                  if re.id ∈ ids then
                    { re with paid_at := some now, status := "paid" }
                  else re) } := by
          simp [create_payout, helig, hchain]
        rw [hred]
        intro p hp
        simp only [List.mem_map, List.mem_append, List.mem_singleton] at hp
        obtain ⟨p0, hp0 | hp0, rfl⟩ := hp
        · have hne : p0.id ≠ pid := hfresh1 p0 hp0
          rw [if_neg hne]
          have hnew : ((eligibleEvents db artist ids).enum.map (fun q =>
              ({ id := gen q.1
                 payout_id := pid
                 event_id := q.2.id
                 amount_cents := pyInt (q.2.amount * 100)
                 created_at := now } : PayoutItem))).filter
                (fun it => decide (it.payout_id = p0.id)) = [] := by
            rw [List.filter_eq_nil_iff]
            intro it hit
            rw [List.mem_map] at hit
            obtain ⟨q, -, rfl⟩ := hit
            simpa using fun h => hne h.symm
          simp only [List.filter_append, hnew, List.append_nil]
          exact hinv p0 hp0
        · subst hp0
          rw [if_pos rfl]
          have hold : db.payout_items.filter
              (fun it => decide (it.payout_id = pid)) = [] := by
            rw [List.filter_eq_nil_iff]
            intro it hit
            simpa using hfresh2 it hit
          have hnew : ((eligibleEvents db artist ids).enum.map (fun q =>
              ({ id := gen q.1
                 payout_id := pid
                 event_id := q.2.id
                 amount_cents := pyInt (q.2.amount * 100)
                 created_at := now } : PayoutItem))).filter
                (fun it => decide (it.payout_id = pid))
              = (eligibleEvents db artist ids).enum.map (fun q =>
                  ({ id := gen q.1
                     payout_id := pid
                     event_id := q.2.id
                     amount_cents := pyInt (q.2.amount * 100)
                     created_at := now } : PayoutItem)) := by
            rw [List.filter_eq_self]
            intro it hit
            rw [List.mem_map] at hit
            obtain ⟨q, -, rfl⟩ := hit
            simp
          simp only [List.filter_append, hold, hnew, List.nil_append,
            List.map_map]
          have hcomp : (PayoutItem.amount_cents ∘ fun q :
                ℕ × RoyaltyEvent =>
              ({ id := gen q.1
                 payout_id := pid
                 event_id := q.2.id
                 amount_cents := pyInt (q.2.amount * 100)
                 created_at := now } : PayoutItem))
              = (fun e : RoyaltyEvent => pyInt (e.amount * 100)) ∘ Prod.snd :=
            rfl
          rw [hcomp, ← List.map_map, List.enum_map_snd]
    · rw [show (create_payout db artist artist ids chain pid gen now).1 = db
          by simp [create_payout, helig]]
      exact hinv
  · intro p hp
    obtain ⟨h1, h2⟩ := audit_loop_stable cfg.dry_run env cnow
      ((fetch_recent_results db cfg cnow).enum.map fun q => (q.2, idg q.1))
      db initStats
    rw [run_audit_cycle] at *
    rw [h1] at hp
    rw [h2]
    exact hinv p hp
  · exact fun p hp => hinv p hp

/-- Sample state for the C5 witness: one completed payout of 550 cents with
two items, plus the matching paid events. -/
def sumInvDB : DB :=
  { tracks := [{ id := "t1", artist_id := "a1" }]
    results := []
    usage_logs := []
    royalty_events := []
    payouts :=
      [{ id := "p0"
         artist_id := "a1"
         amount_cents := 550
         status := "completed"
         tx_hash := some "demo_0"
         demo := some true
         created_at := 0
         completed_at := some 0 }]
    payout_items :=
      [{ id := "i0"
         payout_id := "p0"
         event_id := "e0"
         amount_cents := 250
         created_at := 0 },
       { id := "i1"
         payout_id := "p0"
         event_id := "e0b"
         amount_cents := 300
         created_at := 0 }] }

/-- Witness for C5 at a concrete state and concrete operations. -/
theorem payout_amount_equals_item_sum_witness :
    payoutSumInvariant sumInvDB
    ∧ payoutSumInvariant (create_payout sumInvDB "a1" "a1" []
        { tx_hash := "demo_1", success := true, error_message := none }
        "p1" (fun i => "item" ++ toString i) 7).1
    ∧ payoutSumInvariant (run_audit_cycle sumInvDB
        { similarity_threshold := 85/100
          time_window_hours := 24
          batch_size := 100
          royalty_base_rate := 10
          dry_run := false } none (fun i => "ev" ++ toString i) 7).1
    ∧ payoutSumInvariant
        (update_royalty_event_status sumInvDB "e0" "paid" 7) :=
  have hinv : payoutSumInvariant sumInvDB := by
    intro p hp
    rw [sumInvDB] at hp
    simp only [List.mem_singleton] at hp
    subst hp
    decide
  have h := payout_amount_equals_item_sum sumInvDB "a1" []
    { tx_hash := "demo_1", success := true, error_message := none }
    "p1" (fun i => "item" ++ toString i) 7
    { similarity_threshold := 85/100
      time_window_hours := 24
      batch_size := 100
      royalty_base_rate := 10
      dry_run := false } none (fun i => "ev" ++ toString i) 7
    "e0" "paid" 7 hinv
    (by decide) (by decide)
  ⟨hinv, h.1, h.2.1, h.2.2⟩

/-- The C3 invariant: at most one royalty event references any given
result id. -/
def oneEventPerResult (db : DB) : Prop :=
  ∀ rid : String,
    db.royalty_events.countP (fun e => decide (e.result_id = rid)) ≤ 1

/-- What `process_result` does to the royalty-event table: either nothing,
or — only when no event referenced the result yet — it appends one event
referencing exactly that result. -/
lemma process_result_events (db : DB) (d : Bool) (e : Option ℚ)
    (r : AttributionResult) (eid : String) (now : ℚ) :
    (process_result db d e r eid now).1.royalty_events = db.royalty_events
    ∨ (check_if_already_processed db r.id = false
       ∧ find_matching_sdk_logs db r.track_id r.created_at 60 ≠ []
       ∧ ∃ ev : RoyaltyEvent, ev.result_id = r.id
          ∧ (process_result db d e r eid now).1.royalty_events
              = db.royalty_events ++ [ev]) := by
  by_cases hc : check_if_already_processed db r.id
  · left
    simp [process_result, hc]
  · cases hlogs : find_matching_sdk_logs db r.track_id r.created_at 60 with
    | nil =>
      left
      simp [process_result, hc, hlogs]
    | cons l ls =>
      cases d with
      | true =>
        left
        simp [process_result, hc, hlogs]
      | false =>
        right
        refine ⟨by simpa using hc, by simp [hlogs],
          { id := eid
            track_id := r.track_id
            result_id := r.id
            ai_use_log_id := l.id
            event_type := "dual_proof_verified"
            similarity := r.similarity
            match_confidence := pyRound (r.similarity * (6/10) +
              (l.confidence.getD (9/10)) * (4/10)) 3
            payout_weight := pyRound (calculate_payout_weight r.similarity
              (l.confidence.getD (9/10)) r.metadata_duration_seconds
              l.metadata_tier) 3
            amount := calculate_payout_amount (calculate_payout_weight
              r.similarity (l.confidence.getD (9/10))
              r.metadata_duration_seconds l.metadata_tier) none e
            status := "pending"
            paid_at := none
            verified_at := now }, rfl, ?_⟩
        simp [process_result, hc, hlogs, create_verified_royalty_event]

/-- One `process_result` step preserves the at-most-one invariant. -/
lemma process_result_one_event (db : DB) (d : Bool) (e : Option ℚ)
    (r : AttributionResult) (eid : String) (now : ℚ)
    (h : oneEventPerResult db) :
    oneEventPerResult (process_result db d e r eid now).1 := by
  rcases process_result_events db d e r eid now with heq | ⟨hc, -, ev, hev, heq⟩
  · intro rid
    rw [heq]
    exact h rid
  · intro rid
    rw [heq, List.countP_append]
    by_cases hr : ev.result_id = rid
    · have hrid : rid = r.id := (hr.symm.trans hev :)
      have hzero : db.royalty_events.countP
          (fun x => decide (x.result_id = rid)) = 0 := by
        rw [List.countP_eq_zero]
        intro a ha
        rw [check_if_already_processed, decide_eq_false_iff_not] at hc
        simp only [decide_eq_true_eq]
        exact fun hcontra => hc ⟨a, ha, hcontra.trans hrid⟩
      rw [hzero]
      simp [hr]
    · have : List.countP (fun x => decide (x.result_id = rid)) [ev] = 0 := by
        simp [hr]
      rw [this]
      simpa using h rid

/-- The audit loop preserves the at-most-one invariant. -/
lemma audit_loop_one_event (d : Bool) (e : Option ℚ) (now : ℚ)
    (entries : List (AttributionResult × String)) (db : DB)
    (stats : AuditStats) (h : oneEventPerResult db) :
    oneEventPerResult (audit_loop d e now entries db stats).1 := by
  induction entries generalizing db stats with
  | nil => exact h
  | cons p rest ih =>
    obtain ⟨r, eid⟩ := p
    rw [audit_loop]
    by_cases hc : check_if_already_processed db r.id
    · rw [if_pos hc]
      exact ih db _ h
    · rw [if_neg hc]
      have hstep := process_result_one_event db d e r eid now h
      cases hs : (process_result db d e r eid now).2 with
      | some s => simpa only [hs] using ih _ _ hstep
      | none => simpa only [hs] using ih _ _ hstep

/-- C3: the at-most-one-royalty-event-per-result invariant is preserved by
any sequence of sequential audit cycles: every fetched result is first
checked for an existing event referencing it (both at the top of the cycle
loop and inside `process_result`) and skipped when one exists, so a single
sequential promoter never promotes a result twice. -/
theorem promoter_at_most_one_event_per_result
    (inputs : List CycleInput) (db : DB) (h : oneEventPerResult db) :
    oneEventPerResult (run_cycles inputs db) := by
  induction inputs generalizing db with
  | nil => exact h
  | cons c cs ih =>
    rw [run_cycles]
    exact ih _ (audit_loop_one_event c.cfg.dry_run c.env_base_rate c.now _
      db initStats h)

/-- Sample state for the C3 witness: a promotable result with a matching
usage log and an unrelated existing event. -/
def promoterDB : DB :=
  { tracks := [{ id := "t1", artist_id := "a1" }]
    results :=
      [{ id := "r1"
         track_id := "t1"
         similarity := 9/10
         created_at := 100
         metadata_duration_seconds := none
         metadata_track_title := none
         metadata_artist := none }]
    usage_logs :=
      [{ id := "l1"
         track_id := "t1"
         confidence := some (87/100)
         created_at := 103
         generated_at := 103
         model_id := some "m1"
         metadata_tier := none }]
    royalty_events :=
      [{ id := "e9"
         track_id := "t9"
         result_id := "r9"
         ai_use_log_id := "l9"
         event_type := "dual_proof_verified"
         similarity := 9/10
         match_confidence := 9/10
         payout_weight := 9/10
         amount := 5/2
         status := "pending"
         paid_at := none
         verified_at := 0 }]
    payouts := []
    payout_items := [] }

/-- Witness for C3: two concrete sequential cycles over `promoterDB`. -/
theorem promoter_at_most_one_event_per_result_witness :
    oneEventPerResult promoterDB
    ∧ oneEventPerResult (run_cycles
        [{ cfg :=
             { similarity_threshold := 85/100
               time_window_hours := 24
               batch_size := 100
               royalty_base_rate := 10
               dry_run := false }
           env_base_rate := none
           id_gen := fun i => "ev" ++ toString i
           now := 120 },
         { cfg :=
             { similarity_threshold := 85/100
               time_window_hours := 24
               batch_size := 100
               royalty_base_rate := 10
               dry_run := false }
           env_base_rate := none
           id_gen := fun i => "evb" ++ toString i
           now := 150 }] promoterDB) :=
  have h : oneEventPerResult promoterDB := by
    intro rid
    have : promoterDB.royalty_events.countP
        (fun e => decide (e.result_id = rid))
        ≤ promoterDB.royalty_events.length :=
      List.countP_le_length _
    simpa [promoterDB] using this
  ⟨h, promoter_at_most_one_event_per_result _ promoterDB h⟩

/-- The royalty event `process_result` inserts when it promotes result `r`
against the first matching usage log `l` (the record literal of
`create_verified_royalty_event`, with the defaulted confidence). -/
def promotedEvent (e : Option ℚ) (r : AttributionResult) (l : UsageLog)
    (eid : String) (now : ℚ) : RoyaltyEvent :=
  { id := eid
    track_id := r.track_id
    result_id := r.id
    ai_use_log_id := l.id
    event_type := "dual_proof_verified"
    similarity := r.similarity
    match_confidence := pyRound (r.similarity * (6/10) +
      (l.confidence.getD (9/10)) * (4/10)) 3
    payout_weight := pyRound (calculate_payout_weight r.similarity
      (l.confidence.getD (9/10)) r.metadata_duration_seconds
      l.metadata_tier) 3
    amount := calculate_payout_amount (calculate_payout_weight r.similarity
      (l.confidence.getD (9/10)) r.metadata_duration_seconds
      l.metadata_tier) none e
    status := "pending"
    paid_at := none
    verified_at := now }

/-- `process_result`, evaluated on the promotion path: not yet processed, a
first matching log exists, not a dry run. -/
lemma process_result_promotes (db : DB) (e : Option ℚ)
    (r : AttributionResult) (eid : String) (now : ℚ) (l : UsageLog)
    (ls : List UsageLog)
    (hc : check_if_already_processed db r.id = false)
    (hl : find_matching_sdk_logs db r.track_id r.created_at 60 = l :: ls) :
    process_result db false e r eid now
      = ({ db with royalty_events :=
            db.royalty_events ++ [promotedEvent e r l eid now] },
         some eid) := by
  simp [process_result, hc, hl, create_verified_royalty_event, promotedEvent]

/-- The sdk-log query only reads the usage-log table. -/
lemma find_matching_congr {db db' : DB} (h : db.usage_logs = db'.usage_logs)
    (t : String) (tm w : ℚ) :
    find_matching_sdk_logs db t tm w = find_matching_sdk_logs db' t tm w := by
  rw [find_matching_sdk_logs, find_matching_sdk_logs, h]

/-- Appending an event referencing a different result does not change the
already-processed check. -/
lemma check_append_eq (db : DB) (ev : RoyaltyEvent) (x : String)
    (h2 : ev.result_id ≠ x) :
    check_if_already_processed
      { db with royalty_events := db.royalty_events ++ [ev] } x
      = check_if_already_processed db x := by
  simp only [check_if_already_processed]
  rw [decide_eq_decide]
  constructor
  · rintro ⟨a, ha, hax⟩
    rw [List.mem_append, List.mem_singleton] at ha
    rcases ha with ha | rfl
    · exact ⟨a, ha, hax⟩
    · exact absurd hax h2
  · rintro ⟨a, ha, hax⟩
    exact ⟨a, List.mem_append.mpr (Or.inl ha), hax⟩

/-- The audit loop, specified against the usage-log table it started from:
it never changes the usage logs; its `no_sdk_log` statistic counts exactly
the entries that were unprocessed and had no matching usage log; and every
royalty event it appends references an entry that DID have a matching usage
log. Requires the entries' result rows to be determined by their ids. -/
lemma audit_loop_no_sdk_spec (d : Bool) (e : Option ℚ) (now : ℚ) (db₀ : DB) :
    ∀ (entries : List (AttributionResult × String)) (db : DB)
      (stats : AuditStats),
    db.usage_logs = db₀.usage_logs →
    (∀ p ∈ entries, ∀ q ∈ entries,
      (p : AttributionResult × String).1.id = (q : AttributionResult × String).1.id → p.1 = q.1) →
    (∀ p ∈ entries,
      find_matching_sdk_logs db₀ (p : AttributionResult × String).1.track_id p.1.created_at 60 = [] →
      check_if_already_processed db p.1.id
        = check_if_already_processed db₀ p.1.id) →
    (audit_loop d e now entries db stats).1.usage_logs = db₀.usage_logs
    ∧ (audit_loop d e now entries db stats).2.no_sdk_log
        = stats.no_sdk_log + entries.countP (fun p =>
            decide (find_matching_sdk_logs db₀ p.1.track_id p.1.created_at 60
                = []
              ∧ check_if_already_processed db₀ p.1.id = false))
    ∧ ∃ new, (audit_loop d e now entries db stats).1.royalty_events
          = db.royalty_events ++ new
        ∧ ∀ ev ∈ new, ∃ p ∈ entries, ev.result_id = p.1.id
            ∧ find_matching_sdk_logs db₀ p.1.track_id p.1.created_at 60 ≠ []
  | [], db, stats, hu, _, _ => by
    exact ⟨hu, by simp [audit_loop], [], by simp [audit_loop], by simp⟩
  | (r, eid) :: rest, db, stats, hu, hinj, hproc => by
    have hfm : ∀ t tm, find_matching_sdk_logs db t tm 60
        = find_matching_sdk_logs db₀ t tm 60 :=
      fun t tm => find_matching_congr hu t tm 60
    have hinjr : ∀ p ∈ rest, ∀ q ∈ rest,
        (p : AttributionResult × String).1.id = (q : AttributionResult × String).1.id → p.1 = q.1 :=
      fun p hp q hq => hinj p (List.mem_cons_of_mem _ hp) q
        (List.mem_cons_of_mem _ hq)
    rw [audit_loop]
    by_cases hc : check_if_already_processed db r.id
    · rw [if_pos hc]
      obtain ⟨ih1, ih2, new, ihn, ihp⟩ :=
        audit_loop_no_sdk_spec d e now db₀ rest db _ hu hinjr
          (fun p hp => hproc p (List.mem_cons_of_mem _ hp))
      have hhead : decide
          (find_matching_sdk_logs db₀ r.track_id r.created_at 60 = []
            ∧ check_if_already_processed db₀ r.id = false) = false := by
        by_cases hnl : find_matching_sdk_logs db₀ r.track_id r.created_at 60
            = []
        · have := hproc (r, eid) (List.mem_cons_self _ _) hnl
          simp [hnl, ← this, hc]
        · simp [hnl]
      refine ⟨ih1, ?_, new, ihn,
        fun ev hev =>
          (ihp ev hev).imp fun p hp => ⟨List.mem_cons_of_mem _ hp.1, hp.2⟩⟩
      rw [ih2, List.countP_cons, hhead]
      simp
    · rw [if_neg hc]
      have hcf : check_if_already_processed db r.id = false := by
        simpa using hc
      cases hl : find_matching_sdk_logs db r.track_id r.created_at 60 with
      | nil =>
        have hpr : process_result db d e r eid now = (db, none) := by
          simp [process_result, hc, hl]
        simp only [hpr, hl, List.isEmpty_nil, if_true]
        obtain ⟨ih1, ih2, new, ihn, ihp⟩ :=
          audit_loop_no_sdk_spec d e now db₀ rest db _ hu hinjr
            (fun p hp => hproc p (List.mem_cons_of_mem _ hp))
        have hl0 : find_matching_sdk_logs db₀ r.track_id r.created_at 60
            = [] := by rw [← hfm]; exact hl
        have hc0 : check_if_already_processed db₀ r.id = false := by
          rw [← hproc (r, eid) (List.mem_cons_self _ _) hl0]
          simpa using hc
        refine ⟨ih1, ?_, new, ihn,
          fun ev hev =>
            (ihp ev hev).imp fun p hp => ⟨List.mem_cons_of_mem _ hp.1, hp.2⟩⟩
        rw [ih2, List.countP_cons]
        have : decide
            (find_matching_sdk_logs db₀ r.track_id r.created_at 60 = []
              ∧ check_if_already_processed db₀ r.id = false) = true := by
          simp [hl0, hc0]
        rw [this]
        simp
        omega
      | cons l ls =>
        cases d with
        | true =>
          have hpr : process_result db true e r eid now = (db, none) := by
            simp [process_result, hc, hl]
          simp only [hpr, hl, List.isEmpty_cons, if_false]
          obtain ⟨ih1, ih2, new, ihn, ihp⟩ :=
            audit_loop_no_sdk_spec true e now db₀ rest db _ hu hinjr
              (fun p hp => hproc p (List.mem_cons_of_mem _ hp))
          have hne : decide
              (find_matching_sdk_logs db₀ r.track_id r.created_at 60 = []
                ∧ check_if_already_processed db₀ r.id = false) = false := by
            have : find_matching_sdk_logs db₀ r.track_id r.created_at 60
                = l :: ls := by rw [← hfm]; exact hl
            simp [this]
          refine ⟨ih1, ?_, new, ihn,
            fun ev hev =>
              (ihp ev hev).imp fun p hp =>
                ⟨List.mem_cons_of_mem _ hp.1, hp.2⟩⟩
          rw [ih2, List.countP_cons, hne]
          simp
        | false =>
          have hpr := process_result_promotes db e r eid now l ls hcf hl
          simp only [hpr]
          have hlne : find_matching_sdk_logs db₀ r.track_id r.created_at 60
              = l :: ls := by rw [← hfm]; exact hl
          obtain ⟨ih1, ih2, new, ihn, ihp⟩ :=
            audit_loop_no_sdk_spec false e now db₀ rest
              { db with royalty_events :=
                  db.royalty_events ++ [promotedEvent e r l eid now] } _
              hu hinjr
              (fun p hp hnl => by
                have hne : (promotedEvent e r l eid now).result_id
                    ≠ (p : AttributionResult × String).1.id := by
                  intro hcontra
                  have hpr1 : r = p.1 :=
                    hinj (r, eid) (List.mem_cons_self _ _) p
                      (List.mem_cons_of_mem _ hp) hcontra
                  rw [← hpr1] at hnl
                  rw [hnl] at hlne
                  exact List.noConfusion hlne
                rw [check_append_eq db (promotedEvent e r l eid now) p.1.id
                  hne]
                exact hproc p (List.mem_cons_of_mem _ hp) hnl)
          have hne : decide
              (find_matching_sdk_logs db₀ r.track_id r.created_at 60 = []
                ∧ check_if_already_processed db₀ r.id = false) = false := by
            simp [hlne]
          refine ⟨ih1, ?_, promotedEvent e r l eid now :: new, ?_, ?_⟩
          · rw [ih2, List.countP_cons, hne]
            simp
          · rw [ihn]
            simp
          · intro ev hev
            rcases List.mem_cons.mp hev with rfl | hev
            · exact ⟨(r, eid), (List.mem_cons_self _ _), rfl, by
                rw [hlne]; exact fun h => List.noConfusion h⟩
            · exact (ihp ev hev).imp fun p hp =>
                ⟨List.mem_cons_of_mem _ hp.1, hp.2⟩

/-- C7: a fetched result with no usage log on its track within the 60-minute
window (and no pre-existing event for it) is never promoted — the cycle
leaves the number of events referencing it unchanged — and the cycle's
`no_sdk_log` statistic counts exactly the fetched results in that situation,
so this result is counted (the statistic is at least 1). Royalties are never
recognized from the similarity signal alone. -/
theorem promoter_requires_usage_log
    (db : DB) (cfg : AuditorConfig) (env : Option ℚ) (gen : ℕ → String)
    (now : ℚ) (r : AttributionResult)
    (hnodup : ((fetch_recent_results db cfg now).map
      AttributionResult.id).Nodup)
    (hr : r ∈ fetch_recent_results db cfg now)
    (hnolog : find_matching_sdk_logs db r.track_id r.created_at 60 = [])
    (hunproc : check_if_already_processed db r.id = false) :
    (run_audit_cycle db cfg env gen now).1.royalty_events.countP
        (fun ev => decide (ev.result_id = r.id))
      = db.royalty_events.countP (fun ev => decide (ev.result_id = r.id))
    ∧ (run_audit_cycle db cfg env gen now).2.no_sdk_log
        = (fetch_recent_results db cfg now).countP (fun x =>
            decide (find_matching_sdk_logs db x.track_id x.created_at 60 = []
              ∧ check_if_already_processed db x.id = false))
    ∧ 1 ≤ (run_audit_cycle db cfg env gen now).2.no_sdk_log := by
  have hmem : ∀ p ∈ (fetch_recent_results db cfg now).enum.map
      (fun q => (q.2, gen q.1)),
      (p : AttributionResult × String).1 ∈ fetch_recent_results db cfg now := by
    intro p hp
    rw [List.mem_map] at hp
    obtain ⟨q, hq, rfl⟩ := hp
    rw [← List.enum_map_snd (fetch_recent_results db cfg now)]
    exact List.mem_map_of_mem Prod.snd hq
  have hinj : ∀ p ∈ (fetch_recent_results db cfg now).enum.map
      (fun q => (q.2, gen q.1)),
      ∀ q ∈ (fetch_recent_results db cfg now).enum.map
        (fun q => (q.2, gen q.1)),
      (p : AttributionResult × String).1.id
        = (q : AttributionResult × String).1.id → p.1 = q.1 :=
    fun p hp q hq hid =>
      List.inj_on_of_nodup_map hnodup (hmem p hp) (hmem q hq) hid
  obtain ⟨h1, h2, new, hn, hprop⟩ :=
    audit_loop_no_sdk_spec cfg.dry_run env now db
      ((fetch_recent_results db cfg now).enum.map (fun q => (q.2, gen q.1)))
      db initStats rfl hinj (fun p _ _ => rfl)
  have hrun : run_audit_cycle db cfg env gen now
      = audit_loop cfg.dry_run env now
          ((fetch_recent_results db cfg now).enum.map
            (fun q => (q.2, gen q.1))) db initStats := rfl
  rw [hrun]
  have hsecond : (audit_loop cfg.dry_run env now
      ((fetch_recent_results db cfg now).enum.map (fun q => (q.2, gen q.1)))
      db initStats).2.no_sdk_log
      = (fetch_recent_results db cfg now).countP (fun x =>
          decide (find_matching_sdk_logs db x.track_id x.created_at 60 = []
            ∧ check_if_already_processed db x.id = false)) := by
    rw [h2, List.countP_map]
    conv_rhs => rw [← List.enum_map_snd (fetch_recent_results db cfg now),
      List.countP_map]
    simp only [initStats, Nat.zero_add]
    congr 1
  refine ⟨?_, hsecond, ?_⟩
  · rw [hn, List.countP_append]
    have hzero : new.countP (fun ev => decide (ev.result_id = r.id)) = 0 := by
      rw [List.countP_eq_zero]
      intro ev hev
      simp only [decide_eq_true_eq]
      intro hcontra
      obtain ⟨p, hpmem, hpid, hplog⟩ := hprop ev hev
      have hpr : p.1 = r :=
        List.inj_on_of_nodup_map hnodup (hmem p hpmem) hr
          (hpid.symm.trans hcontra)
      rw [hpr] at hplog
      exact hplog hnolog
    rw [hzero]
    omega
  · rw [hsecond]
    have : 0 < (fetch_recent_results db cfg now).countP (fun x =>
        decide (find_matching_sdk_logs db x.track_id x.created_at 60 = []
          ∧ check_if_already_processed db x.id = false)) := by
      rw [List.countP_pos_iff]
      exact ⟨r, hr, by simp [hnolog, hunproc]⟩
    exact this

/-- The result row used by the C7 witness. -/
def noLogResult : AttributionResult :=
  { id := "r1"
    track_id := "t1"
    similarity := 1
    created_at := 0
    metadata_duration_seconds := none
    metadata_track_title := none
    metadata_artist := none }

/-- Sample state for the C7 witness: a high-similarity result with NO usage
log anywhere. -/
def noLogDB : DB :=
  { tracks := [{ id := "t1", artist_id := "a1" }]
    results := [noLogResult]
    usage_logs := []
    royalty_events := []
    payouts := []
    payout_items := [] }

/-- The default auditor configuration used by witnesses. -/
def auditCfg : AuditorConfig :=
  { similarity_threshold := 85/100
    time_window_hours := 24
    batch_size := 100
    royalty_base_rate := 10
    dry_run := false }

/-- Witness for C7 at a concrete state: the lone fetched result has no
matching usage log, and the cycle counts it under `no_sdk_log`. -/
theorem promoter_requires_usage_log_witness :
    ((fetch_recent_results noLogDB auditCfg 0).map
      AttributionResult.id).Nodup
    ∧ noLogResult ∈ fetch_recent_results noLogDB auditCfg 0
    ∧ find_matching_sdk_logs noLogDB noLogResult.track_id
        noLogResult.created_at 60 = []
    ∧ check_if_already_processed noLogDB noLogResult.id = false
    ∧ (run_audit_cycle noLogDB auditCfg none
        (fun i => "ev" ++ toString i) 0).1.royalty_events.countP
          (fun ev => decide (ev.result_id = noLogResult.id)) = 0
    ∧ 1 ≤ (run_audit_cycle noLogDB auditCfg none
        (fun i => "ev" ++ toString i) 0).2.no_sdk_log := by
  have hfetch : fetch_recent_results noLogDB auditCfg 0 = [noLogResult] := by
    norm_num [fetch_recent_results, noLogDB, auditCfg, noLogResult,
      sortByCreatedDesc, insertByCreatedDesc]
  have h1 : ((fetch_recent_results noLogDB auditCfg 0).map
      AttributionResult.id).Nodup := by
    rw [hfetch]
    simp
  have h2 : noLogResult ∈ fetch_recent_results noLogDB auditCfg 0 := by
    rw [hfetch]
    simp
  have h3 : find_matching_sdk_logs noLogDB noLogResult.track_id
      noLogResult.created_at 60 = [] := rfl
  have h4 : check_if_already_processed noLogDB noLogResult.id = false := by
    decide
  have h := promoter_requires_usage_log noLogDB auditCfg none
    (fun i => "ev" ++ toString i) 0 noLogResult h1 h2 h3 h4
  exact ⟨h1, h2, h3, h4, by rw [h.1]; rfl, h.2.2⟩

/-- C10: when the first matching usage log carries no `confidence` field,
`process_result` does not reject the pair and does not use zero: it promotes
the result with the substituted default confidence 0.9, and the created
event's `match_confidence`, `payout_weight` and `amount` are all computed
from 0.9. -/
theorem promoter_default_confidence
    (db : DB) (env : Option ℚ) (r : AttributionResult) (eid : String)
    (now : ℚ) (log : UsageLog) (ls : List UsageLog)
    (hunproc : check_if_already_processed db r.id = false)
    (hlogs : find_matching_sdk_logs db r.track_id r.created_at 60 = log :: ls)
    (hconf : log.confidence = none) :
    process_result db false env r eid now
      = ({ db with royalty_events := db.royalty_events ++
          [⟨eid, r.track_id, r.id, log.id, "dual_proof_verified",
            r.similarity,
            pyRound (r.similarity * (6/10) + (9/10) * (4/10)) 3,
            pyRound (calculate_payout_weight r.similarity (9/10)
              r.metadata_duration_seconds log.metadata_tier) 3,
            calculate_payout_amount (calculate_payout_weight r.similarity
              (9/10) r.metadata_duration_seconds log.metadata_tier) none env,
            "pending", none, now⟩] },
         some eid) := by
  rw [process_result_promotes db env r eid now log ls hunproc hlogs]
  simp [promotedEvent, hconf]

/-- The result row of the C10 witness. -/
def dcResult : AttributionResult :=
  { id := "r1"
    track_id := "t1"
    similarity := 1
    created_at := 0
    metadata_duration_seconds := none
    metadata_track_title := none
    metadata_artist := none }

/-- The usage-log row of the C10 witness: its `confidence` is absent. -/
def dcLog : UsageLog :=
  { id := "l1"
    track_id := "t1"
    confidence := none
    created_at := 0
    generated_at := 0
    model_id := none
    metadata_tier := none }

/-- Sample state for the C10 witness. -/
def dcDB : DB :=
  { tracks := [{ id := "t1", artist_id := "a1" }]
    results := [dcResult]
    usage_logs := [dcLog]
    royalty_events := []
    payouts := []
    payout_items := [] }

/-- Witness for C10: a concrete promotion whose log lacks `confidence`
creates the event and computes `match_confidence` from the default 0.9. -/
theorem promoter_default_confidence_witness :
    check_if_already_processed dcDB dcResult.id = false
    ∧ find_matching_sdk_logs dcDB dcResult.track_id dcResult.created_at 60
        = [dcLog]
    ∧ dcLog.confidence = none
    ∧ (process_result dcDB false none dcResult "ev1" 7).2 = some "ev1"
    ∧ ((process_result dcDB false none dcResult "ev1" 7).1.royalty_events.map
        RoyaltyEvent.match_confidence)
      = [pyRound (dcResult.similarity * (6/10) + (9/10) * (4/10)) 3] := by
  have h1 : check_if_already_processed dcDB dcResult.id = false := by decide
  have h2 : find_matching_sdk_logs dcDB dcResult.track_id
      dcResult.created_at 60 = [dcLog] := by
    norm_num [find_matching_sdk_logs, dcDB, dcLog, dcResult]
  have h3 : dcLog.confidence = none := rfl
  have h := promoter_default_confidence dcDB none dcResult "ev1" 7 dcLog []
    h1 h2 h3
  refine ⟨h1, h2, h3, by rw [h], by rw [h]; simp [dcDB]⟩

/-- The below-threshold result row of the C4 counterexample. -/
def c4Result : AttributionResult :=
  { id := "r1"
    track_id := "t1"
    similarity := 1/2
    created_at := 0
    metadata_duration_seconds := none
    metadata_track_title := none
    metadata_artist := none }

/-- The usage-log row of the C4 counterexample. -/
def c4Log : UsageLog :=
  { id := "l1"
    track_id := "t1"
    confidence := some (9/10)
    created_at := 0
    generated_at := 0
    model_id := some "m1"
    metadata_tier := none }

/-- The royalty event of the C4 counterexample, linking `r1` and `l1`. -/
def c4Event : RoyaltyEvent :=
  { id := "ev1"
    track_id := "t1"
    result_id := "r1"
    ai_use_log_id := "l1"
    event_type := "dual_proof_verified"
    similarity := 1/2
    match_confidence := 33/50
    payout_weight := 33/50
    amount := 33/5
    status := "pending"
    paid_at := none
    verified_at := 0 }

/-- Counterexample state for C4: the royalty event `ev1` links result `r1`
and usage log `l1` on track `t1`, but `r1`'s similarity 0.5 is below
`DUAL_PROOF_THRESHOLD`. -/
def c4DB : DB :=
  { tracks := [{ id := "t1", artist_id := "a1" }]
    results := [c4Result]
    usage_logs := [c4Log]
    royalty_events := [c4Event]
    payouts := []
    payout_items := [] }

/-- C4 counterexample: a RoyaltyEvent links result `r1` and usage log `l1`
on the same track, yet `get_dual_proof_status_for_result` answers `"none"`
(its similarity-threshold check precedes its royalty-event lookup) while
`get_dual_proof_status_for_sdk_log` answers `"confirmed"` — the two sides
are NOT symmetric, refuting the claim as stated. -/
theorem dual_proof_symmetry_counterexample :
    (∃ e ∈ c4DB.royalty_events,
      e.result_id = "r1" ∧ e.ai_use_log_id = "l1" ∧ e.track_id = "t1")
    ∧ (get_dual_proof_status_for_result c4DB "r1").status = "none"
    ∧ (get_dual_proof_status_for_sdk_log c4DB "l1").status = "confirmed" := by
  refine ⟨⟨c4Event, List.mem_singleton.mpr rfl, rfl, rfl, rfl⟩, ?_, ?_⟩
  · norm_num [get_dual_proof_status_for_result, c4DB, c4Result,
      DUAL_PROOF_THRESHOLD]
  · norm_num [get_dual_proof_status_for_sdk_log, c4DB, c4Log, c4Event]

/-- C4 (amended): the symmetry holds as soon as the linking event's result
row clears `DUAL_PROOF_THRESHOLD` and the event is the unique royalty event
matching each side's lookup: then both directions answer `"confirmed"` and
carry the same `royalty_event_id`. -/
theorem dual_proof_confirmed_symmetry
    (db : DB) (e : RoyaltyEvent) (r : AttributionResult) (log : UsageLog)
    (hres : db.results.filter (fun x => decide (x.id = e.result_id)) = [r])
    (hlog : db.usage_logs.filter
      (fun l => decide (l.id = e.ai_use_log_id)) = [log])
    (hthr : DUAL_PROOF_THRESHOLD ≤ r.similarity)
    (hev1 : db.royalty_events.filter (fun x =>
      decide (x.result_id = e.result_id ∧ x.track_id = r.track_id)) = [e])
    (hev2 : db.royalty_events.filter (fun x =>
      decide (x.ai_use_log_id = e.ai_use_log_id
        ∧ x.track_id = log.track_id)) = [e]) :
    (get_dual_proof_status_for_result db e.result_id).status = "confirmed"
    ∧ (get_dual_proof_status_for_sdk_log db e.ai_use_log_id).status
        = "confirmed"
    ∧ (get_dual_proof_status_for_result db e.result_id).royalty_event_id
        = some e.id
    ∧ (get_dual_proof_status_for_sdk_log db e.ai_use_log_id).royalty_event_id
        = some e.id := by
  have hnotlt : ¬ r.similarity < DUAL_PROOF_THRESHOLD := not_lt.mpr hthr
  constructor
  · rw [get_dual_proof_status_for_result, hres]
    simp only [hnotlt, if_false, hev1]
  constructor
  · rw [get_dual_proof_status_for_sdk_log, hlog]
    simp only [hev2]
  constructor
  · rw [get_dual_proof_status_for_result, hres]
    simp only [hnotlt, if_false, hev1]
  · rw [get_dual_proof_status_for_sdk_log, hlog]
    simp only [hev2]

/-- The above-threshold result row of the C4 witness. -/
def c4gResult : AttributionResult :=
  { id := "r1"
    track_id := "t1"
    similarity := 9/10
    created_at := 0
    metadata_duration_seconds := none
    metadata_track_title := none
    metadata_artist := none }

/-- The usage-log row of the C4 witness. -/
def c4gLog : UsageLog :=
  { id := "l1"
    track_id := "t1"
    confidence := some (9/10)
    created_at := 0
    generated_at := 0
    model_id := some "m1"
    metadata_tier := none }

/-- The royalty event of the C4 witness. -/
def c4gEvent : RoyaltyEvent :=
  { id := "ev1"
    track_id := "t1"
    result_id := "r1"
    ai_use_log_id := "l1"
    event_type := "dual_proof_verified"
    similarity := 9/10
    match_confidence := 9/10
    payout_weight := 9/10
    amount := 9
    status := "pending"
    paid_at := none
    verified_at := 0 }

/-- Well-formed state for the C4 witness: same shape as `c4DB` but with the
result's similarity at 0.9, above threshold. -/
def c4GoodDB : DB :=
  { tracks := [{ id := "t1", artist_id := "a1" }]
    results := [c4gResult]
    usage_logs := [c4gLog]
    royalty_events := [c4gEvent]
    payouts := []
    payout_items := [] }

/-- Witness for the amended C4 at a concrete state. -/
theorem dual_proof_confirmed_symmetry_witness :
    (get_dual_proof_status_for_result c4GoodDB "r1").status = "confirmed"
    ∧ (get_dual_proof_status_for_sdk_log c4GoodDB "l1").status = "confirmed"
    ∧ (get_dual_proof_status_for_result c4GoodDB "r1").royalty_event_id
        = some "ev1"
    ∧ (get_dual_proof_status_for_sdk_log c4GoodDB "l1").royalty_event_id
        = some "ev1" := by
  have h := dual_proof_confirmed_symmetry c4GoodDB c4gEvent c4gResult c4gLog
    (by simp [c4GoodDB, c4gResult, c4gEvent])
    (by simp [c4GoodDB, c4gLog, c4gEvent])
    (by norm_num [DUAL_PROOF_THRESHOLD, c4gResult])
    (by simp [c4GoodDB, c4gResult, c4gEvent])
    (by simp [c4GoodDB, c4gLog, c4gEvent])
  exact h

/-- `roundHalfEven` restricted to whole numbers is the identity. -/
lemma roundHalfEven_natCast (n : ℕ) : roundHalfEven (n : ℚ) = n := by
  rw [roundHalfEven]
  norm_num [Int.floor_natCast]

/-- The length of the fixed-precision rendering of `10.0` at `p ≥ 1`
fractional digits is `3 + p`. -/
lemma fixedPrecStr_ten_length (p : ℕ) (hp : 0 < p) :
    (fixedPrecStr p 10).length = 3 + p := by
  have habs : |(10:ℚ)| = 10 := by norm_num
  have hcast : |(10:ℚ)| * 10^p = ((10 * 10^p : ℕ) : ℚ) := by
    rw [habs]; push_cast; ring
  have hrnd : (roundHalfEven (|(10:ℚ)| * 10^p)).toNat = 10 * 10^p := by
    rw [hcast, roundHalfEven_natCast]; exact Int.toNat_natCast _
  have hdiv : 10 * 10^p / 10^p = 10 :=
    Nat.mul_div_cancel 10 (Nat.pos_pow_of_pos p (by norm_num))
  have hmod : 10 * 10^p % 10^p = 0 := Nat.mul_mod_left 10 (10^p)
  have hs10 : (toString (10:ℕ)).length = 2 := by decide
  have hs0 : (toString (0:ℕ)).length = 1 := by decide
  have hmk : ∀ l : List Char, (String.mk l).length = l.length := fun l => rfl
  simp only [fixedPrecStr, hrnd, hdiv, hmod,
    if_neg (by norm_num : ¬(10:ℚ) < 0), if_neg (Nat.pos_iff_ne_zero.mp hp)]
  rw [String.length_append, String.length_append, String.length_append]
  rw [zeroPad, String.length_append]
  simp only [hs10, hs0, hmk, List.length_replicate]
  simp only [List.length_nil, List.length_cons]
  omega

/-- The fixed-precision rendering of `10.0` at zero fractional digits. -/
lemma fixedPrecStr_ten_zero : fixedPrecStr 0 10 = "10" := by
  have hrnd : (roundHalfEven (|(10:ℚ)| * 10 ^ (0:ℕ))).toNat = 10 := by
    have h : |(10:ℚ)| * 10 ^ (0:ℕ) = ((10:ℕ) : ℚ) := by push_cast; norm_num
    rw [h, roundHalfEven_natCast]
    exact Int.toNat_natCast _
  simp only [fixedPrecStr, if_pos rfl,
    if_neg (by norm_num : ¬(10:ℚ) < 0), hrnd]
  decide

/-- C8 (code evaluated at the failing input): the payload of
`compute_event_proof_hash` interpolates the raw default float rendering —
for `amount = 10.0`, `confidence = 0.25` it is
`"e|t|10.0|0.25|unverified"`, with one fractional digit for the amount and
two for the confidence — and NO fixed precision `p` reproduces both
renderings, refuting the claim that numeric inputs are rounded or
stringified at a fixed precision before hashing (the digest is still the
SHA-256 of that payload, deterministically). -/
theorem event_proof_hash_raw_float_formatting :
    eventProofData "e" "t" 10 (1/4) none = "e|t|10.0|0.25|unverified"
    ∧ pyFloatStr 10 = "10.0"
    ∧ pyFloatStr (1/4) = "0.25"
    ∧ compute_event_proof_hash "e" "t" 10 (1/4) none
        = sha256Hex (strBytes "e|t|10.0|0.25|unverified")
    ∧ ∀ p : ℕ,
        ¬(fixedPrecStr p 10 = "10.0" ∧ fixedPrecStr p (1/4) = "0.25") := by
  have h10 : pyFloatStr 10 = "10.0" := by
    norm_num [pyFloatStr, decExp, decExpAux, zeroPad]
    decide
  have h4 : pyFloatStr (1/4) = "0.25" := by
    have habs : |(1/4 : ℚ)| = 1/4 := by norm_num
    norm_num [pyFloatStr, decExp, decExpAux, zeroPad, habs]
    decide
  have hdata : eventProofData "e" "t" 10 (1/4) none
      = "e|t|10.0|0.25|unverified" := by
    rw [eventProofData, h10, h4]
    decide
  refine ⟨hdata, h10, h4, by rw [compute_event_proof_hash, hdata], ?_⟩
  rintro p ⟨h1, h2⟩
  rcases Nat.eq_zero_or_pos p with rfl | hp
  · rw [fixedPrecStr_ten_zero] at h1
    exact absurd h1 (by decide)
  · have hlen := fixedPrecStr_ten_length p hp
    rw [h1] at hlen
    have h4len : ("10.0" : String).length = 4 := by decide
    rw [h4len] at hlen
    have hp1 : p = 1 := by omega
    subst hp1
    have hval : fixedPrecStr 1 (1/4) = "0.2" := by
      have habs : |(1/4 : ℚ)| = 1/4 := by norm_num
      norm_num [fixedPrecStr, roundHalfEven, zeroPad, habs]
      decide
    rw [hval] at h2
    exact absurd h2 (by decide)

end RoyaltyPlatform
